import Mathlib

/-!
Verification of the N7AKG-UDP-Translator core (Go) against its
natural-language specification.

The Go sources are shallowly embedded: Go strings become `List Char`
(messages on the wire are ASCII byte strings, and every byte is modelled
as one `Char` whose code point is the byte value), fallible functions
return `Except Str QSO` mirroring Go's `(*QSO, error)`, the Go float64
frequency arithmetic is modelled with exact rationals `ℚ`, and calls to
`time.Now()` become an explicit `now : GoTime` argument threaded into the
parsers.  The regular-expression field extractors of
`internal/formatter/formatter.go` are translated into concrete scanning
functions with Go's leftmost-first, greedy-preference match semantics.
-/

namespace Udp

/-- Go strings, modelled as lists of characters (one `Char` per byte). -/
abbrev Str := List Char

/-- Literal helper: a Lean string literal viewed as a `Str`. -/
def str (s : String) : Str := s.toList

/-! ## Character classes used by the Go regexes -/

/-- ASCII decimal digit, regex class `\d`. -/
def isDigitB (c : Char) : Bool := 48 ≤ c.toNat && c.toNat ≤ 57

/-- Regex class `[A-Z]`. -/
def isUpperB (c : Char) : Bool := 65 ≤ c.toNat && c.toNat ≤ 90

/-- Regex class `[a-z]`. -/
def isLowerB (c : Char) : Bool := 97 ≤ c.toNat && c.toNat ≤ 122

/-- Regex class `[A-Z0-9]`. -/
def isUpperDigitB (c : Char) : Bool := isUpperB c || isDigitB c

/-- Regex class `[A-Z0-9/]`, the callsign-character class of the ADIF
and JSON callsign extractors. -/
def isCallCharB (c : Char) : Bool := isUpperDigitB c || c.toNat == 47

/-- Regex class `\w` = `[0-9A-Za-z_]`. -/
def isWordB (c : Char) : Bool :=
  isDigitB c || isUpperB c || isLowerB c || c.toNat == 95

/-- Regex class `\s` as matched by Go's regexp: `[\t\n\f\r ]`. -/
def isSpaceB (c : Char) : Bool :=
  c.toNat == 32 || c.toNat == 9 || c.toNat == 10 || c.toNat == 12 || c.toNat == 13

/-- Character class of `strings.TrimSpace` (`unicode.IsSpace`, restricted
to ASCII: tab, LF, VT, FF, CR, space). -/
def isTrimSpaceB (c : Char) : Bool :=
  c.toNat == 32 || (9 ≤ c.toNat && c.toNat ≤ 13)

/-- Regex class `[A-Z_]`, the ADIF field-name class of `parseADIF`. -/
def isAdifNameB (c : Char) : Bool := isUpperB c || c.toNat == 95

/-- Byte predicate of the binary-content filters in `DetectMessageType`,
`parseWSJTX` and `parseGeneral`: a control byte other than tab (9),
LF (10) and CR (13) (`b < 32 && b != 9 && b != 10 && b != 13`). -/
def isNonPrintableB (c : Char) : Bool :=
  c.toNat < 32 && !(c.toNat == 9) && !(c.toNat == 10) && !(c.toNat == 13)

/-! ## Go `strings` package primitives used by the source -/

/-- ASCII lowercasing of one character (`strings.ToLower`, restricted to
the ASCII range that occurs in UDP payloads). -/
def toLowerChar (c : Char) : Char :=
  if isUpperB c then Char.ofNat (c.toNat + 32) else c

/-- Go `strings.ToLower` on the ASCII fragment. -/
def toLowerStr (s : Str) : Str := s.map toLowerChar

/-- ASCII uppercasing of one character (`strings.ToUpper`). -/
def toUpperChar (c : Char) : Char :=
  if isLowerB c then Char.ofNat (c.toNat - 32) else c

/-- Go `strings.ToUpper` on the ASCII fragment. -/
def toUpperStr (s : Str) : Str := s.map toUpperChar

/-- Boolean string-prefix test (`p` a prefix of `s`), the building block
for the model of `strings.Contains`. -/
def isPrefixB : Str → Str → Bool
  | [], _ => true
  | _ :: _, [] => false
  | p :: ps, c :: cs => p == c && isPrefixB ps cs

/-- Go `strings.Contains s sub`: some suffix of `s` starts with `sub`. -/
def strContains : Str → Str → Bool
  | s, sub =>
    if isPrefixB sub s then true
    else
      match s with
      | [] => false
      | _ :: cs => strContains cs sub

/-- Go `strings.TrimSpace` (ASCII whitespace; the payloads contain no
non-ASCII space characters). -/
def trimSpace (s : Str) : Str :=
  (s.dropWhile isTrimSpaceB).reverse.dropWhile isTrimSpaceB |>.reverse

/-! ## Generic leftmost scanning for the regex extractors

Go's `regexp.FindStringSubmatch` returns the submatches of the leftmost
match.  Each concrete regex of the source is translated below into a
matcher `f : Str → Option α` that matches the pattern at the start of a
suffix (with the greedy/first-alternative preference Go applies), and
`scanFor f` tries `f` at every suffix from the left. -/

/-- Try a matcher at every suffix of the input, leftmost first
(including the empty suffix, as a regex engine would). -/
def scanFor (f : Str → Option α) : Str → Option α
  | [] => f []
  | c :: rest =>
    match f (c :: rest) with
    | some a => some a
    | none => scanFor f rest

/-- Consume a literal: `dropLitB lit s` returns the rest of `s` after
`lit` when `lit` is a prefix of `s`. -/
def dropLitB : Str → Str → Option Str
  | [], s => some s
  | _ :: _, [] => none
  | p :: ps, c :: cs => if p == c then dropLitB ps cs else none

/-- Greedy `cls*`: longest prefix of characters in the class, plus the
rest of the input. -/
def takeCls (cls : Char → Bool) (s : Str) : Str × Str :=
  (s.takeWhile cls, s.dropWhile cls)

/-- Greedy `cls+`: like `takeCls` but the matched run must be nonempty. -/
def takeCls1 (cls : Char → Bool) (s : Str) : Option (Str × Str) :=
  match takeCls cls s with
  | ([], _) => none
  | (run, rest) => some (run, rest)

/-! ## Message types and records (`internal/formatter/formatter.go`) -/

/-- Go `MessageType` (string constants `wsjt-x`, `fldigi`, `js8call`,
`varac`, `n1mm`, `general`). -/
inductive MessageType where
  | wsjtx | fldigi | js8call | varac | n1mm | general
  deriving DecidableEq, Repr

/-- Location attached to a Go `time.Time`: `time.Parse` without zone
information yields UTC, `time.Now()` yields the local wall clock. -/
inductive TimeLoc where
  | utc | localZone
  deriving DecidableEq, Repr

/-- Go `time.Time`, reduced to the wall-clock fields the program reads
and writes, plus the location marker. -/
structure GoTime where
  year : Nat
  month : Nat
  day : Nat
  hour : Nat
  minute : Nat
  second : Nat
  loc : TimeLoc
  deriving DecidableEq, Repr

/-- Go `QSO` struct. -/
structure QSO where
  Callsign : Str
  Frequency : Str
  Mode : Str
  RST_Sent : Str
  RST_Rcvd : Str
  DateTimeV : GoTime
  Band : Str
  Exchange : Str
  deriving DecidableEq, Repr

/-- Go `Formatter` struct: the station profile handed to `New`. -/
structure Formatter where
  station : Str
  operator : Str
  contest : Str
  deriving DecidableEq, Repr

/-! ## Binary-content counting and detection -/

/-- Count of non-printable bytes, as in the loop of
`DetectMessageType` (formatter.go lines 605-610). -/
def nonPrintableCount (s : Str) : Nat := s.countP (fun c => isNonPrintableB c)

/-- Go `DetectMessageType` (formatter.go lines 601-651): binary filter,
then ordered first-match-wins substring checks on the lowercased copy. -/
def DetectMessageType (message : Str) : MessageType :=
  let messageLower := toLowerStr message
  -- If more than 10% of the message is non-printable, likely binary protocol
  -- (the float64 quotient count/len compared against 0.1 is exact here:
  -- mkRat builds the exact rational value of each side)
  if 0 < message.length ∧
      mkRat 1 10 < mkRat (nonPrintableCount message) message.length then
    MessageType.general
  else if strContains messageLower (str "<contactinfo") ||
      strContains messageLower (str "<contestname>") ||
      strContains messageLower (str "<mycall>") ||
      strContains messageLower (str "n1mm") ||
      (strContains messageLower (str "app=") && strContains messageLower (str "n1mm")) then
    MessageType.n1mm
  else if strContains messageLower (str "varac") ||
      strContains messageLower (str "var-ac") ||
      strContains messageLower (str "\"app\":\"varac\"") ||
      strContains messageLower (str "<app>varac</app>") ||
      (strContains messageLower (str "<mode:") && strContains messageLower (str "vara")) ||
      (strContains messageLower (str "<submode:") && strContains messageLower (str "vara")) ||
      (strContains messageLower (str "\x7b") && strContains messageLower (str "\"call\"") &&
        strContains messageLower (str "\"freq")) then
    MessageType.varac
  else if (strContains messageLower (str "<call:") && !strContains messageLower (str "vara")) ||
      (strContains messageLower (str "wsjt-x") && strContains messageLower (str "<") &&
        strContains messageLower (str ":") && strContains messageLower (str ">")) then
    MessageType.wsjtx
  else if strContains messageLower (str "fldigi") then
    MessageType.fldigi
  else if strContains messageLower (str "js8call") || strContains messageLower (str "js8") then
    MessageType.js8call
  else
    MessageType.general

/-! ## Band lookup -/

/-- Go `FrequencyToBand` (formatter.go lines 1154-1178).  The float64
frequency is modelled as an exact rational; every boundary constant of
the source's switch is written as its exact decimal value via `mkRat`
(so 1.8 is `mkRat 18 10`, 14.35 is `mkRat 1435 100`, and so on). -/
def FrequencyToBand (freqMHz : ℚ) : Str :=
  if mkRat 18 10 ≤ freqMHz ∧ freqMHz ≤ mkRat 20 10 then str "160m"
  else if mkRat 35 10 ≤ freqMHz ∧ freqMHz ≤ mkRat 40 10 then str "80m"
  else if mkRat 70 10 ≤ freqMHz ∧ freqMHz ≤ mkRat 73 10 then str "40m"
  else if mkRat 140 10 ≤ freqMHz ∧ freqMHz ≤ mkRat 1435 100 then str "20m"
  else if mkRat 210 10 ≤ freqMHz ∧ freqMHz ≤ mkRat 2145 100 then str "15m"
  else if mkRat 280 10 ≤ freqMHz ∧ freqMHz ≤ mkRat 297 10 then str "10m"
  else if mkRat 500 10 ≤ freqMHz ∧ freqMHz ≤ mkRat 540 10 then str "6m"
  else if mkRat 1440 10 ≤ freqMHz ∧ freqMHz ≤ mkRat 1480 10 then str "2m"
  else if mkRat 4200 10 ≤ freqMHz ∧ freqMHz ≤ mkRat 4500 10 then str "70cm"
  else str "UNK"

/-- Modelled from the spec: the fixed band range table of section 4.1,
as a list of `(low, high, label)` rows, all bounds inclusive, each bound
written as its exact decimal value. -/
def bandRanges : List (ℚ × ℚ × Str) :=
  [(mkRat 18 10, mkRat 20 10, str "160m"), (mkRat 35 10, mkRat 40 10, str "80m"),
   (mkRat 70 10, mkRat 73 10, str "40m"), (mkRat 140 10, mkRat 1435 100, str "20m"),
   (mkRat 210 10, mkRat 2145 100, str "15m"), (mkRat 280 10, mkRat 297 10, str "10m"),
   (mkRat 500 10, mkRat 540 10, str "6m"), (mkRat 1440 10, mkRat 1480 10, str "2m"),
   (mkRat 4200 10, mkRat 4500 10, str "70cm")]

/-- Modelled from the spec: look a frequency up in a band range table,
returning the label of the first containing range and "UNK" when no
range contains it. -/
def lookupBand : List (ℚ × ℚ × Str) → ℚ → Str
  | [], _ => str "UNK"
  | (lo, hi, name) :: rest, q => if lo ≤ q ∧ q ≤ hi then name else lookupBand rest q

/-! ## Go `time` package: the four `time.Parse` layouts the program uses,
and the `Format("2006-01-02 15:04:05")` serialization -/

/-- Digit-string to number (used for ADIF length fields and exponents). -/
def digitsToNat (s : Str) : Nat := s.foldl (fun a c => a * 10 + (c.toNat - 48)) 0

/-- Read exactly `n` decimal digits, returning their value and the rest. -/
def readNDigitsAux (acc : Nat) : Nat → Str → Option (Nat × Str)
  | 0, s => some (acc, s)
  | _ + 1, [] => none
  | n + 1, c :: cs =>
    if isDigitB c then readNDigitsAux (acc * 10 + (c.toNat - 48)) n cs else none

/-- Read exactly `n` decimal digits (Go's fixed-width numeric layout chunks). -/
def readNDigits (n : Nat) (s : Str) : Option (Nat × Str) := readNDigitsAux 0 n s

/-- Consume one expected character. -/
def dropChar (c : Char) : Str → Option Str
  | [] => none
  | x :: xs => if x == c then some xs else none

/-- Gregorian leap year, as `time.Date` computes it. -/
def isLeapYear (y : Nat) : Bool := (y % 4 == 0 && y % 100 != 0) || y % 400 == 0

/-- Days in a month, for `time.Parse`'s day-of-month range check. -/
def daysInMonth (y m : Nat) : Nat :=
  if m == 2 then (if isLeapYear y then 29 else 28)
  else if m == 4 || m == 6 || m == 9 || m == 11 then 30
  else 31

/-- Range validation performed by `time.Parse` on the parsed fields. -/
def validTime (t : GoTime) : Bool :=
  decide (1 ≤ t.month) && decide (t.month ≤ 12) &&
  decide (1 ≤ t.day) && decide (t.day ≤ daysInMonth t.year t.month) &&
  decide (t.hour ≤ 23) && decide (t.minute ≤ 59) && decide (t.second ≤ 59)

/-- Shared shape of the two separated layouts: `2006-01-02`, a separator
character, `15:04:05`; returns the time (UTC, since the layouts carry no
zone) and the unconsumed rest. -/
def parseDT (sep : Char) (s : Str) : Option (GoTime × Str) := do
  let (y, s) ← readNDigits 4 s
  let s ← dropChar '-' s
  let (mo, s) ← readNDigits 2 s
  let s ← dropChar '-' s
  let (d, s) ← readNDigits 2 s
  let s ← dropChar sep s
  let (h, s) ← readNDigits 2 s
  let s ← dropChar ':' s
  let (mi, s) ← readNDigits 2 s
  let s ← dropChar ':' s
  let (se, s) ← readNDigits 2 s
  let t : GoTime := ⟨y, mo, d, h, mi, se, TimeLoc.utc⟩
  if validTime t then some (t, s) else none

/-- Go `time.Parse("2006-01-02 15:04:05", s)`. -/
def parseLayoutDash (s : Str) : Option GoTime :=
  match parseDT ' ' s with
  | some (t, []) => some t
  | _ => none

/-- Go `time.Parse("2006-01-02T15:04:05Z", s)` (the trailing `Z` of this
layout is a literal; the layout itself carries no zone, so UTC). -/
def parseLayoutISO (s : Str) : Option GoTime :=
  match parseDT 'T' s with
  | some (t, rest) => if rest == str "Z" then some t else none
  | _ => none

/-- Go `time.Parse("20060102150405", s)`: exactly 14 digits. -/
def parseLayout14 (s : Str) : Option GoTime := do
  let (y, s) ← readNDigits 4 s
  let (mo, s) ← readNDigits 2 s
  let (d, s) ← readNDigits 2 s
  let (h, s) ← readNDigits 2 s
  let (mi, s) ← readNDigits 2 s
  let (se, s) ← readNDigits 2 s
  let t : GoTime := ⟨y, mo, d, h, mi, se, TimeLoc.utc⟩
  if s.isEmpty && validTime t then some t else none

/-- Go `time.Parse("200601021504", s)`: exactly 12 digits. -/
def parseLayout12 (s : Str) : Option GoTime := do
  let (y, s) ← readNDigits 4 s
  let (mo, s) ← readNDigits 2 s
  let (d, s) ← readNDigits 2 s
  let (h, s) ← readNDigits 2 s
  let (mi, s) ← readNDigits 2 s
  let t : GoTime := ⟨y, mo, d, h, mi, 0, TimeLoc.utc⟩
  if s.isEmpty && validTime t then some t else none

/-- Decimal rendering of a natural number. -/
def natStr (n : Nat) : Str := (Nat.repr n).toList

/-- Zero-padded decimal rendering of width `w`. -/
def padNat (w : Nat) (n : Nat) : Str :=
  let s := natStr n
  List.replicate (w - s.length) '0' ++ s

/-- Go `t.Format("2006-01-02 15:04:05")`: the wall-clock fields,
zero-padded, with no timezone conversion. -/
def formatTimestampGo (t : GoTime) : Str :=
  padNat 4 t.year ++ str "-" ++ padNat 2 t.month ++ str "-" ++ padNat 2 t.day ++
  str " " ++ padNat 2 t.hour ++ str ":" ++ padNat 2 t.minute ++ str ":" ++ padNat 2 t.second

/-! ## Go `strconv.ParseFloat`, restricted to plain decimal syntax

Every string this program feeds to `ParseFloat` is either a regex capture
of shape `\d+\.?\d*` or a trimmed XML tag body; the model accepts the
decimal forms `[+-]?` digits `[. digits]` `[eE[+-]digits]` exactly (Go
additionally accepts hex floats, "Inf" and "NaN", which no payload field
of this protocol produces), and represents the value exactly as a
rational instead of rounding to a float64. -/

def parseFloatDec (s : Str) : Option ℚ := do
  let (neg, s1) :=
    match s with
    | c :: rest => if c == '-' then (true, rest) else if c == '+' then (false, rest) else (false, s)
    | [] => (false, s)
  let (ip, r1) := takeCls isDigitB s1
  let (fp, r2) :=
    match r1 with
    | c :: rest => if c == '.' then takeCls isDigitB rest else (([] : Str), r1)
    | [] => (([] : Str), r1)
  if ip.isEmpty && fp.isEmpty then none
  else
    let hadDot : Bool := match r1 with | c :: _ => c == '.' | [] => false
    let r3 := if hadDot then r2 else r1
    -- the exact value of the mantissa digits ip.fp is
    -- (ip * 10^|fp| + fp) / 10^|fp|
    let n : Nat := digitsToNat ip * 10 ^ fp.length + digitsToNat fp
    let num : Int := if neg then -(n : Int) else (n : Int)
    match r3 with
    | [] => some (mkRat num (10 ^ fp.length))
    | c :: rest =>
      if c == 'e' || c == 'E' then
        let (eneg, rest1) :=
          match rest with
          | d :: dd => if d == '-' then (true, dd) else if d == '+' then (false, dd) else (false, rest)
          | [] => (false, rest)
        match takeCls1 isDigitB rest1 with
        | some (ds, []) =>
          let e := digitsToNat ds
          some (if eneg then mkRat num (10 ^ (fp.length + e))
                else mkRat (num * (10 : Int) ^ e) (10 ^ fp.length))
        | _ => none
      else none

/-! ## The WSJT-X ADIF field extractors (formatter.go lines 698-784) -/

/-- Matcher for `<call:\d+>([A-Z0-9/]+)` at the start of a suffix. -/
def matchWsjtxCallAt (s : Str) : Option Str := do
  let s ← dropLitB (str "<call:") s
  let (_, s) ← takeCls1 isDigitB s
  let s ← dropLitB (str ">") s
  let (c, _) ← takeCls1 isCallCharB s
  pure c

/-- Leftmost capture of `<call:\d+>([A-Z0-9/]+)`. -/
def findWsjtxCall (m : Str) : Option Str := scanFor matchWsjtxCallAt m

/-- Matcher for `<band:\d+>(\d+m)` at the start of a suffix. -/
def matchWsjtxBandAt (s : Str) : Option Str := do
  let s ← dropLitB (str "<band:") s
  let (_, s) ← takeCls1 isDigitB s
  let s ← dropLitB (str ">") s
  let (ds, s) ← takeCls1 isDigitB s
  let _ ← dropLitB (str "m") s
  pure (ds ++ str "m")

/-- Leftmost capture of `<band:\d+>(\d+m)`. -/
def findWsjtxBand (m : Str) : Option Str := scanFor matchWsjtxBandAt m

/-- Matcher for `<mode:\d+>(\w+)` at the start of a suffix. -/
def matchWsjtxModeAt (s : Str) : Option Str := do
  let s ← dropLitB (str "<mode:") s
  let (_, s) ← takeCls1 isDigitB s
  let s ← dropLitB (str ">") s
  let (w, _) ← takeCls1 isWordB s
  pure w

/-- Leftmost capture of `<mode:\d+>(\w+)`. -/
def findWsjtxMode (m : Str) : Option Str := scanFor matchWsjtxModeAt m

/-- Capture for `([\-\+]?\d+)`: an optional sign (kept in the capture)
followed by one or more digits. -/
def matchSignedDigits (s : Str) : Option Str :=
  match s with
  | [] => none
  | c :: rest =>
    if c == '-' || c == '+' then do
      let (ds, _) ← takeCls1 isDigitB rest
      pure (c :: ds)
    else do
      let (ds, _) ← takeCls1 isDigitB s
      pure ds

/-- Matcher for `<rst_sent:\d+>([\-\+]?\d+)` at the start of a suffix. -/
def matchWsjtxRstSentAt (s : Str) : Option Str := do
  let s ← dropLitB (str "<rst_sent:") s
  let (_, s) ← takeCls1 isDigitB s
  let s ← dropLitB (str ">") s
  matchSignedDigits s

/-- Leftmost capture of `<rst_sent:\d+>([\-\+]?\d+)`. -/
def findWsjtxRstSent (m : Str) : Option Str := scanFor matchWsjtxRstSentAt m

/-- Matcher for `<rst_rcvd:\d+>([\-\+]?\d+)` at the start of a suffix. -/
def matchWsjtxRstRcvdAt (s : Str) : Option Str := do
  let s ← dropLitB (str "<rst_rcvd:") s
  let (_, s) ← takeCls1 isDigitB s
  let s ← dropLitB (str ">") s
  matchSignedDigits s

/-- Leftmost capture of `<rst_rcvd:\d+>([\-\+]?\d+)`. -/
def findWsjtxRstRcvd (m : Str) : Option Str := scanFor matchWsjtxRstRcvdAt m

/-- Capture for `(\d+\.?\d*)`: digits, then optionally a dot and more
digits (the dot is kept even when no digits follow, as the regex does). -/
def matchNumberCapture (s : Str) : Option Str := do
  let (ds, s1) ← takeCls1 isDigitB s
  match s1 with
  | c :: rest =>
    if c == '.' then
      let (fs, _) := takeCls isDigitB rest
      pure (ds ++ str "." ++ fs)
    else pure ds
  | [] => pure ds

/-- Matcher for `<freq:\d+>(\d+\.?\d*)` at the start of a suffix. -/
def matchWsjtxFreqAt (s : Str) : Option Str := do
  let s ← dropLitB (str "<freq:") s
  let (_, s) ← takeCls1 isDigitB s
  let s ← dropLitB (str ">") s
  matchNumberCapture s

/-- Leftmost capture of `<freq:\d+>(\d+\.?\d*)`. -/
def findWsjtxFreq (m : Str) : Option Str := scanFor matchWsjtxFreqAt m

/-- Matcher for `<qso_date:\d+>(\d{8})` at the start of a suffix. -/
def matchQsoDateAt (s : Str) : Option Str := do
  let s ← dropLitB (str "<qso_date:") s
  let (_, s) ← takeCls1 isDigitB s
  let s ← dropLitB (str ">") s
  let run := s.takeWhile isDigitB
  if 8 ≤ run.length then pure (run.take 8) else none

/-- Leftmost capture of `<qso_date:\d+>(\d{8})`. -/
def findQsoDate (m : Str) : Option Str := scanFor matchQsoDateAt m

/-- Matcher for `<time_on:\d+>(\d{4,6})` at the start of a suffix
(greedy: up to six digits, at least four). -/
def matchTimeOnAt (s : Str) : Option Str := do
  let s ← dropLitB (str "<time_on:") s
  let (_, s) ← takeCls1 isDigitB s
  let s ← dropLitB (str ">") s
  let run := s.takeWhile isDigitB
  if 4 ≤ run.length then pure (run.take 6) else none

/-- Leftmost capture of `<time_on:\d+>(\d{4,6})`. -/
def findTimeOn (m : Str) : Option Str := scanFor matchTimeOnAt m

/-- Binary-content early return shared by `parseWSJTX` and
`parseGeneral`: the message contains a control byte other than
tab, LF, CR. -/
def hasCtrl (m : Str) : Bool := m.any isNonPrintableB

/-- The final guard every parser ends with (`if qso.Callsign == "" {
return nil, fmt.Errorf(...) }; return qso, nil`). -/
def requireCallsign (e : Str) (q : QSO) : Except Str QSO :=
  if q.Callsign = [] then Except.error e else Except.ok q

/-- Go `parseWSJTX` (formatter.go lines 698-784): binary-noise
rejection, ADIF structural check, field extraction, date/time assembly,
and the missing-callsign hard failure. -/
def parseWSJTX (now : GoTime) (m : Str) : Except Str QSO :=
  if hasCtrl m then
    Except.error (str "binary protocol message detected, ignoring")
  else if !(strContains m (str "<call:") || strContains m (str "<CALL:")) then
    Except.error (str "not a valid ADIF QSO message")
  else
    let callsign := (findWsjtxCall m).getD []
    let band := (findWsjtxBand m).getD []
    let mode := (findWsjtxMode m).getD []
    let rstS := (findWsjtxRstSent m).getD []
    let rstR := (findWsjtxRstRcvd m).getD []
    let freq := (findWsjtxFreq m).getD []
    let dt :=
      match findQsoDate m, findTimeOn m with
      | some qsoDate, some timeOn0 =>
        let timeOn :=
          if timeOn0.length == 4 then timeOn0 ++ str "00"
          else if timeOn0.length == 5 then timeOn0 ++ str "0"
          else timeOn0
        let dateTimeStr := qsoDate ++ timeOn
        if 14 ≤ dateTimeStr.length then
          match parseLayout14 dateTimeStr with
          | some t => t
          | none => now
        else now
      | _, _ => now
    requireCallsign (str "no callsign found in message")
      ⟨callsign, freq, mode, rstS, rstR, dt, band, []⟩

/-! ## The Generic parser (formatter.go lines 1106-1152) -/

/-- True when the optional previous character ends a regex word
(for `\b` handling). -/
def isWordOpt : Option Char → Bool
  | none => false
  | some c => isWordB c

/-- Try a matcher at every suffix, leftmost first, threading the
character just before the suffix for word-boundary tests. -/
def scanForPrev (f : Option Char → Str → Option α) : Option Char → Str → Option α
  | prev, [] => f prev []
  | prev, c :: rest =>
    match f prev (c :: rest) with
    | some a => some a
    | none => scanForPrev f (some c) rest

/-- Alternation over repetition counts, in the backtracking order of a
greedy bounded quantifier. -/
def firstSomeN (counts : List Nat) (k : Nat → Option α) : Option α :=
  match counts with
  | [] => none
  | n :: ns =>
    match k n with
    | some a => some a
    | none => firstSomeN ns k

/-- Consume exactly `n` characters of a class, returning the rest. -/
def readExactCls (cls : Char → Bool) : Nat → Str → Option Str
  | 0, s => some s
  | _ + 1, [] => none
  | n + 1, c :: cs => if cls c then readExactCls cls n cs else none

/-- Matcher for the ham-callsign regex
`\b([A-Z0-9]{1,3}[0-9][A-Z0-9]{0,3}[A-Z])\b` at the start of a suffix,
with the greedy backtracking order of both bounded quantifiers. -/
def matchCallsignAt (prev : Option Char) (s : Str) : Option Str :=
  if isWordOpt prev then none
  else
    firstSomeN [3, 2, 1] fun a => do
      let s1 ← readExactCls isUpperDigitB a s
      match s1 with
      | c :: s2 =>
        if isDigitB c then
          firstSomeN [3, 2, 1, 0] fun b => do
            let s3 ← readExactCls isUpperDigitB b s2
            match s3 with
            | c2 :: s4 =>
              if isUpperB c2 && !(isWordOpt s4.head?) then
                some (s.take (a + 1 + b + 1))
              else none
            | [] => none
        else none
      | [] => none

/-- Leftmost capture of the ham-callsign regex. -/
def findCallsign (m : Str) : Option Str := scanForPrev matchCallsignAt none m

/-- Matcher for `(\d+\.?\d*)\s*MHz` at the start of a suffix. -/
def matchFreqMHzAt (s : Str) : Option Str := do
  let num ← matchNumberCapture s
  let rest := s.drop num.length
  let (_, rest2) := takeCls isSpaceB rest
  let _ ← dropLitB (str "MHz") rest2
  pure num

/-- Leftmost capture of `(\d+\.?\d*)\s*MHz`. -/
def findFreqMHz (m : Str) : Option Str := scanFor matchFreqMHzAt m

/-- Matcher for `(\d+)m\b` at the start of a suffix. -/
def matchBandDigitAt (s : Str) : Option Str := do
  let (ds, s1) ← takeCls1 isDigitB s
  match s1 with
  | c :: s2 => if c == 'm' && !(isWordOpt s2.head?) then some ds else none
  | [] => none

/-- Leftmost capture of `(\d+)m\b`. -/
def findBandDigits (m : Str) : Option Str := scanFor matchBandDigitAt m

/-- Alternatives of the fixed mode-keyword regex, in source order. -/
def modeKeywords : List Str :=
  [str "FT8", str "FT4", str "PSK31", str "RTTY", str "CW",
   str "SSB", str "LSB", str "USB", str "AM", str "FM"]

/-- Matcher for `\b(FT8|FT4|PSK31|RTTY|CW|SSB|LSB|USB|AM|FM)\b` at the
start of a suffix (first alternative wins at a given position). -/
def matchModeKeywordAt (prev : Option Char) (s : Str) : Option Str :=
  if isWordOpt prev then none
  else
    let rec tryAlts : List Str → Option Str
      | [] => none
      | kw :: rest =>
        if isPrefixB kw s && !(isWordOpt ((s.drop kw.length).head?)) then some kw
        else tryAlts rest
    tryAlts modeKeywords

/-- Leftmost capture of the mode-keyword regex. -/
def findModeKeyword (m : Str) : Option Str := scanForPrev matchModeKeywordAt none m

/-- Go `parseGeneral` (formatter.go lines 1106-1152): binary rejection,
then best-effort callsign/frequency/band/mode extraction with default
mode "DATA" and the missing-callsign hard failure. -/
def parseGeneral (now : GoTime) (m : Str) : Except Str QSO :=
  if hasCtrl m then
    Except.error (str "binary protocol message, ignoring")
  else
    let callsign := (findCallsign m).getD []
    let freq := (findFreqMHz m).getD []
    let band :=
      match findBandDigits m with
      | some ds => ds ++ str "m"
      | none => []
    let mode := (findModeKeyword (toUpperStr m)).getD (str "DATA")
    requireCallsign (str "no callsign found in message: " ++ m)
      ⟨callsign, freq, mode, [], [], now, band, []⟩

/-- Go `parseFldigi`: delegates to the Generic parser. -/
def parseFldigi (now : GoTime) (m : Str) : Except Str QSO := parseGeneral now m

/-- Go `parseJS8Call`: delegates to the Generic parser. -/
def parseJS8Call (now : GoTime) (m : Str) : Except Str QSO := parseGeneral now m

/-! ## The VarAC JSON-like field extractors (formatter.go lines 814-861) -/

/-- The tail `\s*:\s*"([^"]+)"` shared by the quoted-value JSON field
regexes. -/
def matchJsonValueTail (s : Str) : Option Str := do
  let (_, s) := takeCls isSpaceB s
  let s ← dropChar ':' s
  let (_, s) := takeCls isSpaceB s
  let s ← dropChar '"' s
  let (v, s2) ← takeCls1 (fun c => !(c == '"')) s
  let _ ← dropChar '"' s2
  pure v

/-- Matcher for `"KEY"\s*:\s*"([^"]+)"` at the start of a suffix
(used with KEY = mode, band, rst_sent, timestamp). -/
def matchJsonStrFieldAt (key : Str) (s : Str) : Option Str := do
  let s ← dropLitB (str "\"" ++ key ++ str "\"") s
  matchJsonValueTail s

/-- Leftmost capture of `"KEY"\s*:\s*"([^"]+)"`. -/
def findJsonField (key : Str) (m : Str) : Option Str :=
  scanFor (matchJsonStrFieldAt key) m

/-- Matcher for `"call"\s*:\s*"([A-Z0-9/]+)"` at the start of a suffix. -/
def matchJsonCallAt (s : Str) : Option Str := do
  let s ← dropLitB (str "\"call\"") s
  let (_, s) := takeCls isSpaceB s
  let s ← dropChar ':' s
  let (_, s) := takeCls isSpaceB s
  let s ← dropChar '"' s
  let (c, s2) ← takeCls1 isCallCharB s
  let _ ← dropChar '"' s2
  pure c

/-- Leftmost capture of `"call"\s*:\s*"([A-Z0-9/]+)"`. -/
def findJsonCall (m : Str) : Option Str := scanFor matchJsonCallAt m

/-- Matcher for `"freq(?:uency)?"\s*:\s*"?(\d+\.?\d*)"?` at the start of
a suffix.  The optional `uency` is tried greedily first; when an opening
quote is consumed a digit must follow, else backtracking falls through
to the quoteless branch (which then fails on the quote). -/
def matchJsonFreqAt (s : Str) : Option Str := do
  let s ← dropLitB (str "\"freq") s
  let s ←
    match dropLitB (str "uency\"") s with
    | some r => some r
    | none => dropLitB (str "\"") s
  let (_, s) := takeCls isSpaceB s
  let s ← dropChar ':' s
  let (_, s) := takeCls isSpaceB s
  let s :=
    match s with
    | c :: rest =>
      if c == '"' && (match rest with | d :: _ => isDigitB d | [] => false) then rest else s
    | [] => s
  matchNumberCapture s

/-- Leftmost capture of the `"freq(?:uency)?"` regex. -/
def findJsonFreq (m : Str) : Option Str := scanFor matchJsonFreqAt m

/-- Matcher for `"rst_r(?:cvd|eceived)"\s*:\s*"([^"]+)"` at the start of
a suffix (`cvd` is the first alternative). -/
def matchJsonRstRcvdAt (s : Str) : Option Str := do
  let s ← dropLitB (str "\"rst_r") s
  let s ←
    match dropLitB (str "cvd\"") s with
    | some r => some r
    | none => dropLitB (str "eceived\"") s
  matchJsonValueTail s

/-- Leftmost capture of the `"rst_r(?:cvd|eceived)"` regex. -/
def findJsonRstRcvd (m : Str) : Option Str := scanFor matchJsonRstRcvdAt m

/-! ## The VarAC plain-text extractors (formatter.go lines 863-899) -/

/-- Case-insensitive literal consumption (the literal is given in
lowercase), for the `(?i)` phrase regex. -/
def dropLitCI : Str → Str → Option Str
  | [], s => some s
  | _ :: _, [] => none
  | p :: ps, c :: cs => if p == toLowerChar c then dropLitCI ps cs else none

/-- Class `[A-Z0-9/]` under `(?i)`: also matches lowercase letters. -/
def isCallCharCI (c : Char) : Bool := isCallCharB (toUpperChar c)

/-- Matcher for the case-insensitive phrase regex
`(?i)(?:qso\s+(?:with\s+|completed\s+with\s+)|call[:\s]+)([A-Z0-9/]+)`
at the start of a suffix; the capture keeps the original case. -/
def matchVaracCallPhraseAt (s : Str) : Option Str :=
  let qsoBranch : Option Str := do
    let s1 ← dropLitCI (str "qso") s
    let (_, s2) ← takeCls1 isSpaceB s1
    let s3 ←
      match (do
          let t ← dropLitCI (str "with") s2
          let (_, t2) ← takeCls1 isSpaceB t
          pure t2 : Option Str) with
      | some r => some r
      | none => do
        let t ← dropLitCI (str "completed") s2
        let (_, t2) ← takeCls1 isSpaceB t
        let t3 ← dropLitCI (str "with") t2
        let (_, t4) ← takeCls1 isSpaceB t3
        pure t4
    let (c, _) ← takeCls1 isCallCharCI s3
    pure c
  match qsoBranch with
  | some c => some c
  | none => do
    let s1 ← dropLitCI (str "call") s
    let (_, s2) ← takeCls1 (fun c => c == ':' || isSpaceB c) s1
    let (c, _) ← takeCls1 isCallCharCI s2
    pure c

/-- Leftmost capture of the VarAC callsign phrase regex. -/
def findVaracCallPhrase (m : Str) : Option Str := scanFor matchVaracCallPhraseAt m

/-- Matcher for `(?:on\s+|@\s+|freq[:\s]+)(\d+\.?\d*)\s*(?:MHz|khz)?` at
the start of a suffix (the trailing optional unit adds no constraint). -/
def matchVaracFreqAt (s : Str) : Option Str := do
  let s1 ←
    match (do
        let t ← dropLitB (str "on") s
        let (_, t2) ← takeCls1 isSpaceB t
        pure t2 : Option Str) with
    | some r => some r
    | none =>
      match (do
          let t ← dropLitB (str "@") s
          let (_, t2) ← takeCls1 isSpaceB t
          pure t2 : Option Str) with
      | some r => some r
      | none => do
        let t ← dropLitB (str "freq") s
        let (_, t2) ← takeCls1 (fun c => c == ':' || isSpaceB c) t
        pure t2
  matchNumberCapture s1

/-- Leftmost capture of the prefixed-frequency regex. -/
def findVaracFreq (m : Str) : Option Str := scanFor matchVaracFreqAt m

/-- Matcher for the standalone-frequency regex `\b(\d{1,2}\.\d{3})\b`
at the start of a suffix. -/
def matchStandaloneFreqAt (prev : Option Char) (s : Str) : Option Str :=
  if isWordOpt prev then none
  else
    firstSomeN [2, 1] fun a => do
      let s1 ← readExactCls isDigitB a s
      let s2 ← dropChar '.' s1
      let s3 ← readExactCls isDigitB 3 s2
      if !(isWordOpt s3.head?) then some (s.take (a + 4)) else none

/-- Leftmost capture of `\b(\d{1,2}\.\d{3})\b`. -/
def findStandaloneFreq (m : Str) : Option Str := scanForPrev matchStandaloneFreqAt none m

/-! ## The generic ADIF extractor (formatter.go lines 924-1011) -/

/-- Matcher for one `<([A-Z_]+):(\d+)>([^<]{0,})` occurrence at the
start of a suffix, returning field name, declared length and the raw
(greedy, possibly empty) value run, plus the rest of the input after
the match. -/
def adifMatchAt (s : Str) : Option ((Str × Nat × Str) × Str) := do
  let s1 ← dropLitB (str "<") s
  let (name, s2) ← takeCls1 isAdifNameB s1
  let s3 ← dropChar ':' s2
  let (lenDs, s4) ← takeCls1 isDigitB s3
  let s5 ← dropChar '>' s4
  let (value, rest) := takeCls (fun c => !(c == '<')) s5
  pure ((name, digitsToNat lenDs, value), rest)

/-- All successive non-overlapping leftmost matches of the ADIF field
regex (`FindAllStringSubmatch(message, -1)`), scanning resumes after
each match.  The fuel argument starts at the message length; every
iteration consumes at least one character, so it never runs out. -/
def adifFieldsGo : Nat → Str → List (Str × Nat × Str)
  | 0, _ => []
  | fuel + 1, s =>
    match adifMatchAt s with
    | some (f, rest) => f :: adifFieldsGo fuel rest
    | none =>
      match s with
      | [] => []
      | _ :: tail => adifFieldsGo fuel tail

/-- The `adifFields` map of `parseADIF`: each match contributes
`name ↦ value[:length]` provided the value run has at least the declared
length; later assignments overwrite earlier ones. -/
def adifEntries (m : Str) : List (Str × Str) :=
  (adifFieldsGo m.length m).filterMap fun f =>
    if f.2.1 ≤ f.2.2.length then some (f.1, f.2.2.take f.2.1) else none

/-- Lookup in the insertion-order entry list with Go map semantics:
the last write to a key wins. -/
def mapLookup (entries : List (Str × Str)) (key : Str) : Option Str :=
  match entries with
  | [] => none
  | (k, v) :: rest =>
    match mapLookup rest key with
    | some v2 => some v2
    | none => if k == key then some v else none

/-- Go `parseADIF` (formatter.go lines 925-1011): generic ADIF field
extraction into a map, field mapping with the "+00" signal-report
defaults, QSO_DATE/TIME_ON timestamp assembly, and the
missing-callsign hard failure.  (`qso.Frequency` is never assigned in
this path, so the band derivation from frequency can never fire; the
source line is kept nonetheless.) -/
def parseADIF (now : GoTime) (m : Str) : Except Str QSO :=
  let fields := adifEntries m
  let callsign := ((mapLookup fields (str "CALL")).map toUpperStr).getD []
  -- MODE if present, else SUBMODE, else unset
  let mode := (mapLookup fields (str "MODE")).getD ((mapLookup fields (str "SUBMODE")).getD [])
  let band := (mapLookup fields (str "BAND")).getD []
  let rstS := (mapLookup fields (str "RST_SENT")).getD []
  let rstR := (mapLookup fields (str "RST_RCVD")).getD []
  let dt :=
    match mapLookup fields (str "QSO_DATE"), mapLookup fields (str "TIME_ON") with
    | some qsoDate, some timeOn =>
      let dateTimeStr := qsoDate ++ timeOn
      if 13 ≤ dateTimeStr.length then
        match parseLayout14 dateTimeStr with
        | some t => t
        | none => now
      else if 11 ≤ dateTimeStr.length then
        match parseLayout12 dateTimeStr with
        | some t => t
        | none => now
      else now
    | _, _ => now
  let rstS' := if rstS = [] then str "+00" else rstS
  let rstR' := if rstR = [] then str "+00" else rstR
  let freq : Str := []
  let band' :=
    if band = [] ∧ freq ≠ [] then
      match parseFloatDec freq with
      | some fq => FrequencyToBand fq
      | none => band
    else band
  requireCallsign (str "no callsign found in ADIF message")
    ⟨callsign, freq, mode, rstS', rstR', dt, band', []⟩

/-- Shared tail of the VarAC JSON and plain-text paths (formatter.go
lines 902-921): band derivation from frequency, "599" signal-report
defaults, and the missing-callsign hard failure. -/
def varacPost (q : QSO) (m : Str) : Except Str QSO :=
  let band :=
    if q.Frequency ≠ [] ∧ q.Band = [] then
      match parseFloatDec q.Frequency with
      | some fq => FrequencyToBand fq
      | none => q.Band
    else q.Band
  let rstS := if q.RST_Sent = [] then str "599" else q.RST_Sent
  let rstR := if q.RST_Rcvd = [] then str "599" else q.RST_Rcvd
  requireCallsign (str "no callsign found in VarAC message: " ++ m)
    { q with Band := band, RST_Sent := rstS, RST_Rcvd := rstR }

/-- Go `parseVarAC` (formatter.go lines 799-922): ADIF sub-format
dispatch, JSON-like extraction, plain-text fallback, and the shared
post-processing. -/
def parseVarAC (now : GoTime) (m : Str) : Except Str QSO :=
  if strContains m (str "<CALL:") && strContains m (str "<EOR>") then
    parseADIF now m
  else if strContains m (str "\x7b") && strContains m (str "\x7d") then
    let q : QSO := {
      Callsign := (findJsonCall m).getD []
      Frequency := (findJsonFreq m).getD []
      Mode := (findJsonField (str "mode") m).getD (str "VARA")
      Band := (findJsonField (str "band") m).getD []
      RST_Sent := (findJsonField (str "rst_sent") m).getD []
      RST_Rcvd := (findJsonRstRcvd m).getD []
      DateTimeV :=
        match findJsonField (str "timestamp") m with
        | some ts =>
          (match parseLayoutDash ts with
           | some t => t
           | none =>
             match parseLayoutISO ts with
             | some t => t
             | none => now)
        | none => now
      Exchange := [] }
    varacPost q m
  else
    let q : QSO := {
      Callsign :=
        match findVaracCallPhrase m with
        | some c => toUpperStr c
        | none => (findCallsign (toUpperStr m)).getD []
      Frequency :=
        match findVaracFreq m with
        | some fq => fq
        | none => (findStandaloneFreq m).getD []
      Mode :=
        if strContains (toUpperStr m) (str "VARA") then
          (if strContains (toUpperStr m) (str "VARA HF") then str "VARA HF"
           else if strContains (toUpperStr m) (str "VARA FM") then str "VARA FM"
           else str "VARA")
        else str "VARA"
      Band := []
      RST_Sent := []
      RST_Rcvd := []
      DateTimeV := now
      Exchange := [] }
    varacPost q m

/-! ## The N1MM XML tag-scrape parser (formatter.go lines 1013-1104) -/

/-- Matcher for `<TAG>([^<]+)</TAG>` at the start of a suffix. -/
def matchTagValueAt (tag : Str) (s : Str) : Option Str := do
  let s ← dropLitB (str "<" ++ tag ++ str ">") s
  let (v, s2) ← takeCls1 (fun c => !(c == '<')) s
  let _ ← dropLitB (str "</" ++ tag ++ str ">") s2
  pure v

/-- Leftmost capture of `<TAG>([^<]+)</TAG>`. -/
def findTagValue (tag : Str) (m : Str) : Option Str := scanFor (matchTagValueAt tag) m

/-- Matcher for `timestamp="([^"]+)"` at the start of a suffix. -/
def matchTimestampAttrAt (s : Str) : Option Str := do
  let s ← dropLitB (str "timestamp=\"") s
  let (v, s2) ← takeCls1 (fun c => !(c == '"')) s
  let _ ← dropChar '"' s2
  pure v

/-- Leftmost capture of `timestamp="([^"]+)"`. -/
def findTimestampAttr (m : Str) : Option Str := scanFor matchTimestampAttrAt m

/-- Matcher for `<exchange1?>([^<]+)</exchange1?>` at the start of a
suffix; the optional `1` in each tag backtracks independently. -/
def matchExchangeAt (s : Str) : Option Str := do
  let s ← dropLitB (str "<exchange") s
  let s ← (if isPrefixB (str "1>") s then some (s.drop 2) else dropChar '>' s)
  let (v, s2) ← takeCls1 (fun c => !(c == '<')) s
  let s3 ← dropLitB (str "</exchange") s2
  let _ ← (if isPrefixB (str "1>") s3 then some (s3.drop 2) else dropChar '>' s3)
  pure v

/-- Leftmost capture of the exchange regex. -/
def findExchange (m : Str) : Option Str := scanFor matchExchangeAt m

/-- Go `parseN1MM` (formatter.go lines 1013-1104): XML-ish tag scraping
with `TrimSpace` on every captured value, the `rxfreq`→`txfreq`
fallback, timestamp attribute parsing, band derivation, "599"
signal-report defaults and the missing-callsign hard failure. -/
def parseN1MM (now : GoTime) (m : Str) : Except Str QSO :=
  let callsign :=
    match findTagValue (str "call") m with
    | some v => trimSpace v
    | none => []
  let f1 :=
    match findTagValue (str "rxfreq") m with
    | some v => trimSpace v
    | none => []
  let freq :=
    if f1 = [] then
      match findTagValue (str "txfreq") m with
      | some v => trimSpace v
      | none => []
    else f1
  let mode :=
    match findTagValue (str "mode") m with
    | some v => trimSpace v
    | none => []
  let band :=
    match findTagValue (str "band") m with
    | some v => trimSpace v
    | none => []
  let rstS :=
    match findTagValue (str "snt") m with
    | some v => trimSpace v
    | none => []
  let rstR :=
    match findTagValue (str "rcv") m with
    | some v => trimSpace v
    | none => []
  let dt :=
    match findTimestampAttr m with
    | some ts =>
      (match parseLayoutDash ts with
       | some t => t
       | none =>
         match parseLayoutISO ts with
         | some t => t
         | none => now)
    | none => now
  let exch :=
    match findExchange m with
    | some v => trimSpace v
    | none => []
  let band' :=
    if freq ≠ [] ∧ band = [] then
      match parseFloatDec freq with
      | some fq => FrequencyToBand fq
      | none => band
    else band
  let rstS' := if rstS = [] then str "599" else rstS
  let rstR' := if rstR = [] then str "599" else rstR
  requireCallsign (str "no callsign found in N1MM message: " ++ m)
    ⟨callsign, freq, mode, rstS', rstR', dt, band', exch⟩

/-- Go `ParseMessage` (formatter.go lines 653-669): dispatch on the
detected message type. -/
def ParseMessage (now : GoTime) (m : Str) : MessageType → Except Str QSO
  | MessageType.wsjtx => parseWSJTX now m
  | MessageType.fldigi => parseFldigi now m
  | MessageType.js8call => parseJS8Call now m
  | MessageType.varac => parseVarAC now m
  | MessageType.n1mm => parseN1MM now m
  | MessageType.general => parseGeneral now m

/-! ## The N1MM XML serializer (formatter.go lines 671-696)

Go's `xml.MarshalIndent(contact, "", "  ")` emits the fixed field set of
`N1MMContactInfo` in struct order, one child element per line indented by
two spaces, with `encoding/xml` text escaping applied to every attribute
and character-data value. -/

/-- Escaping of one character as done by `encoding/xml` (`escapeText`). -/
def escapeChar (c : Char) : Str :=
  if c.toNat == 34 then str "&#34;"
  else if c.toNat == 39 then str "&#39;"
  else if c.toNat == 38 then str "&amp;"
  else if c.toNat == 60 then str "&lt;"
  else if c.toNat == 62 then str "&gt;"
  else if c.toNat == 9 then str "&#x9;"
  else if c.toNat == 10 then str "&#xA;"
  else if c.toNat == 13 then str "&#xD;"
  else [c]

/-- Text escaping applied by `encoding/xml` to attribute values and
character data. -/
def escapeXML : Str → Str
  | [] => []
  | c :: rest => escapeChar c ++ escapeXML rest

/-- Go `FormatForN1MM` (formatter.go lines 671-696): the serialized
`contactinfo` document, with the station profile fields, both frequency
elements set to the record's frequency, the fixed `radionr` of "1", and
all the never-assigned `N1MMContactInfo` fields emitted as empty
elements.  The Go marshal error branch is unreachable for a struct of
string fields, so the model is total. -/
def formatForN1MM (f : Formatter) (q : QSO) : Str :=
  str "<contactinfo app=\"UDP-Logger-Relay\" timestamp=\"" ++
  escapeXML (formatTimestampGo q.DateTimeV) ++
  str "\">" ++
  str "\n  <contestname>" ++ escapeXML f.contest ++ str "</contestname>" ++
  str "\n  <mycall>" ++ escapeXML f.station ++ str "</mycall>" ++
  str "\n  <band>" ++ escapeXML q.Band ++ str "</band>" ++
  str "\n  <rxfreq>" ++ escapeXML q.Frequency ++ str "</rxfreq>" ++
  str "\n  <txfreq>" ++ escapeXML q.Frequency ++ str "</txfreq>" ++
  str "\n  <operator>" ++ escapeXML f.operator ++ str "</operator>" ++
  str "\n  " ++ str "<mode>" ++ escapeXML q.Mode ++ str "</mode>" ++
  str "\n  " ++ str "<call>" ++ escapeXML q.Callsign ++ str "</call>" ++
  str "\n  <countryprefix></countryprefix>" ++
  str "\n  <wpxprefix></wpxprefix>" ++
  str "\n  <stationprefix></stationprefix>" ++
  str "\n  <continent></continent>" ++
  str "\n  <snt>" ++ escapeXML q.RST_Sent ++ str "</snt>" ++
  str "\n  <rcv>" ++ escapeXML q.RST_Rcvd ++ str "</rcv>" ++
  str "\n  <gridsquare></gridsquare>" ++
  str "\n  <exchange1>" ++ escapeXML q.Exchange ++ str "</exchange1>" ++
  str "\n  <section></section>" ++
  str "\n  <comment></comment>" ++
  str "\n  <qth></qth>" ++
  str "\n  <name></name>" ++
  str "\n  <power></power>" ++
  str "\n  <misctext></misctext>" ++
  str "\n  <zone></zone>" ++
  str "\n  <prec></prec>" ++
  str "\n  <ck></ck>" ++
  str "\n  <ismult1></ismult1>" ++
  str "\n  <ismult2></ismult2>" ++
  str "\n  <ismult3></ismult3>" ++
  str "\n  <points></points>" ++
  str "\n  <radionr>1</radionr>" ++
  str "\n  <roverlocation></roverlocation>" ++
  str "\n  <RadioUsed></RadioUsed>" ++
  str "\n</contactinfo>"

/-! ## The message pipeline (internal/relay/relay.go) -/

/-- The configuration fields `processMessage` reads.  The Go
`SourceType` is a string cast straight to `MessageType`; any string
outside the five dialect constants reaches `ParseMessage`'s default
case, so it is modelled directly as a `MessageType`. -/
structure Config where
  listenPort : Nat
  autoDetect : Bool
  sourceType : MessageType
  profile : Formatter
  deriving Repr

/-- The fixed allow-list of `processMessage` (relay.go line 186):
well-known ham application ports plus the configured listen port. -/
def expectedPorts (cfg : Config) : List Nat :=
  [2333, 2237, 2442, 12060, cfg.listenPort]

/-- Go `processMessage` (relay.go lines 175-254): source filter, then
detect (or configured type), parse, serialize.  The returned value is
the datagram handed to `sendMessage`; `none` means the message was
dropped.  Transport errors after this point do not change the payload. -/
def processMessage (cfg : Config) (now : GoTime) (m : Str)
    (srcPort : Nat) (srcIsLoopback : Bool) : Option Str :=
  let isExpectedPort :=
    (expectedPorts cfg).contains srcPort || (srcIsLoopback && decide (srcPort < 10000))
  if !isExpectedPort then none
  else
    let msgType := if cfg.autoDetect then DetectMessageType m else cfg.sourceType
    match ParseMessage now m msgType with
    | Except.error _ => none
    | Except.ok q => some (formatForN1MM cfg.profile q)

/-- Modelled from the spec (section 4.5 source filtering): accept exactly
when the origin port is the configured listen port or one of 2333, 2237,
2442, 12060, or the origin is loopback with port below 10000. -/
def specAccept (cfg : Config) (srcPort : Nat) (srcIsLoopback : Bool) : Bool :=
  (srcPort == cfg.listenPort || srcPort == 2333 || srcPort == 2237 ||
    srcPort == 2442 || srcPort == 12060) ||
  (srcIsLoopback && decide (srcPort < 10000))

/-- Modelled from the spec (section 4.5 pipeline): the post-filter stages
detect → parse → serialize, independent of the message's origin. -/
def relayCore (cfg : Config) (now : GoTime) (m : Str) : Option Str :=
  let msgType := if cfg.autoDetect then DetectMessageType m else cfg.sourceType
  match ParseMessage now m msgType with
  | Except.error _ => none
  | Except.ok q => some (formatForN1MM cfg.profile q)

/-- The defaults of `config.Load` (config.go lines 46-55): listen port
2333, auto-detect on, source type "auto" (which dispatches to the
general parser), station profile UDP-RELAY/OP/GENERAL. -/
def defaultConfig : Config :=
  { listenPort := 2333
    autoDetect := true
    sourceType := MessageType.general
    profile := ⟨str "UDP-RELAY", str "OP", str "GENERAL"⟩ }

/-! ## Concrete payloads, records and profiles used by the claims -/

/-- Fixed reference time used to instantiate the `now` parameter in the
concrete witnesses (an arbitrary local wall-clock instant). -/
def dt0 : GoTime := ⟨2024, 1, 2, 3, 4, 5, TimeLoc.localZone⟩

/-- The WSJT-X ADIF scenario payload of the spec (section 8). -/
def wsjtxScenarioMsg : Str :=
  str "<call:6>VK1ABC<band:3>20m<mode:3>FT8<rst_sent:3>-05<rst_rcvd:3>-12<eor>"

/-- A payload carrying both an N1MM marker and a WSJT-X ADIF substring,
padded with enough NUL bytes that more than 10% of it is non-printable. -/
def c3Payload : Str := str "<contactinfo<call:" ++ List.replicate 10 (Char.ofNat 0)

/-- The N1MM scenario payload of the spec (section 8). -/
def n1mmScenarioMsg : Str :=
  str "<contactinfo app=\"N1MM Logger Plus\" timestamp=\"2025-11-19 01:36:37\"><call>WB4WOJ</call><mode>CW</mode><band>14</band></contactinfo>"

/-- The record the N1MM parser produces for the scenario payload. -/
def qsoC5 : QSO :=
  ⟨str "WB4WOJ", [], str "CW", str "599", str "599",
   ⟨2025, 11, 19, 1, 36, 37, TimeLoc.utc⟩, str "14", []⟩

/-- The station profile of the formatter tests (`New("TEST", "OP",
"GENERAL")`), used to instantiate the serializer in concrete runs. -/
def testProfile : Formatter := ⟨str "TEST", str "OP", str "GENERAL"⟩

/-- The VarAC scenario payload of the spec (section 8). -/
def varacScenarioMsg : Str := str "\x7b\"call\":\"EA1ABC\",\"freq\":\"7.105\"\x7d"

/-- A VarAC ADIF log payload without RST fields. -/
def adifWitnessMsg : Str := str "<CALL:5>N7AKG <MODE:7>DYNAMIC <SUBMODE:7>VARA HF <EOR>"

/-- A VarAC JSON payload without RST fields. -/
def jsonWitnessMsg : Str := str "\x7b\"call\":\"W1ABC\"\x7d"

/-- Characters that `encoding/xml` escaping rewrites. -/
def isXmlSpecial (c : Char) : Bool :=
  c.toNat == 34 || c.toNat == 39 || c.toNat == 38 || c.toNat == 60 ||
  c.toNat == 62 || c.toNat == 9 || c.toNat == 10 || c.toNat == 13

/-- A record whose callsign contains an XML-special character. -/
def qsoC8 : QSO :=
  ⟨str "A<B", str "14.074", str "FT8", str "-05", str "-12", dt0, str "20m", []⟩

/-! ## Helper lemmas about the string primitives -/

theorem strContains_nil (sub : Str) : strContains [] sub = isPrefixB sub [] := by
  rw [strContains]
  cases h : isPrefixB sub [] <;> simp [h]

theorem strContains_cons (c : Char) (cs sub : Str) :
    strContains (c :: cs) sub = (isPrefixB sub (c :: cs) || strContains cs sub) := by
  rw [strContains]
  cases h : isPrefixB sub (c :: cs) <;> simp [h]

theorem strContains_append_of (x t p : Str) (h : strContains t p = true) :
    strContains (x ++ t) p = true := by
  induction x with
  | nil => simpa using h
  | cons c cs ih => rw [List.cons_append, strContains_cons, ih, Bool.or_true]

theorem isPrefixB_self_append (p t : Str) : isPrefixB p (p ++ t) = true := by
  induction p with
  | nil => rfl
  | cons c cs ih => simp [isPrefixB, ih]

theorem isPrefixB_append_both (a u v : Str) :
    isPrefixB (a ++ u) (a ++ v) = isPrefixB u v := by
  induction a with
  | nil => rfl
  | cons c cs ih => simp [isPrefixB, ih]

theorem strContains_of_isPrefixB (s p : Str) (h : isPrefixB p s = true) :
    strContains s p = true := by
  cases s with
  | nil => rw [strContains_nil, h]
  | cons c cs => rw [strContains_cons, h, Bool.true_or]

theorem dropLitB_isPrefixB (lit : Str) :
    ∀ s r, dropLitB lit s = some r → isPrefixB lit s = true := by
  induction lit with
  | nil => intro s r _; rfl
  | cons p ps ih =>
    intro s r h
    cases s with
    | nil => simp [dropLitB] at h
    | cons c cs =>
      rw [dropLitB] at h
      split at h
      · next heq => simp [isPrefixB, heq, ih cs r h]
      · exact absurd h (by simp)

theorem scanFor_imp_strContains {α : Type} (f : Str → Option α) (lit : Str)
    (hf : ∀ s v, f s = some v → isPrefixB lit s = true) :
    ∀ s v, scanFor f s = some v → strContains s lit = true := by
  intro s
  induction s with
  | nil =>
    intro v h
    rw [scanFor] at h
    rw [strContains_nil, hf [] v h]
  | cons c cs ih =>
    intro v h
    rw [scanFor] at h
    rw [strContains_cons]
    cases hfc : f (c :: cs) with
    | some a => rw [hf _ _ hfc, Bool.true_or]
    | none =>
      rw [hfc] at h
      rw [ih v h, Bool.or_true]

/-! ## C1: every dialect parser that succeeds returns a non-empty callsign -/

theorem requireCallsign_ok (e : Str) (q0 q : QSO)
    (h : requireCallsign e q0 = Except.ok q) : q.Callsign ≠ [] ∧ q = q0 := by
  unfold requireCallsign at h
  split at h
  · exact absurd h (by simp)
  · next hne =>
    cases h
    exact ⟨hne, rfl⟩

theorem parseWSJTX_callsign_ne (now : GoTime) (m : Str) (q : QSO)
    (h : parseWSJTX now m = Except.ok q) : q.Callsign ≠ [] := by
  unfold parseWSJTX at h
  split at h
  · exact absurd h (by simp)
  · split at h
    · exact absurd h (by simp)
    · exact (requireCallsign_ok _ _ _ h).1

theorem parseGeneral_callsign_ne (now : GoTime) (m : Str) (q : QSO)
    (h : parseGeneral now m = Except.ok q) : q.Callsign ≠ [] := by
  unfold parseGeneral at h
  split at h
  · exact absurd h (by simp)
  · exact (requireCallsign_ok _ _ _ h).1

theorem parseADIF_callsign_ne (now : GoTime) (m : Str) (q : QSO)
    (h : parseADIF now m = Except.ok q) : q.Callsign ≠ [] := by
  unfold parseADIF at h
  exact (requireCallsign_ok _ _ _ h).1

theorem varacPost_callsign_ne (q0 : QSO) (m : Str) (q : QSO)
    (h : varacPost q0 m = Except.ok q) : q.Callsign ≠ [] := by
  unfold varacPost at h
  exact (requireCallsign_ok _ _ _ h).1

theorem parseVarAC_callsign_ne (now : GoTime) (m : Str) (q : QSO)
    (h : parseVarAC now m = Except.ok q) : q.Callsign ≠ [] := by
  unfold parseVarAC at h
  split at h
  · exact parseADIF_callsign_ne now m q h
  · split at h
    · exact varacPost_callsign_ne _ m q h
    · exact varacPost_callsign_ne _ m q h

theorem parseN1MM_callsign_ne (now : GoTime) (m : Str) (q : QSO)
    (h : parseN1MM now m = Except.ok q) : q.Callsign ≠ [] := by
  unfold parseN1MM at h
  exact (requireCallsign_ok _ _ _ h).1

/-- C1: for every payload and every dialect tag, the dispatched dialect
parser either fails or returns a record whose callsign is non-empty;
a successful record with an empty callsign is impossible. -/
theorem c1_parse_nonempty_callsign (now : GoTime) (m : Str) (mt : MessageType)
    (q : QSO) (h : ParseMessage now m mt = Except.ok q) : q.Callsign ≠ [] := by
  cases mt with
  | wsjtx => exact parseWSJTX_callsign_ne now m q h
  | fldigi => exact parseGeneral_callsign_ne now m q h
  | js8call => exact parseGeneral_callsign_ne now m q h
  | varac => exact parseVarAC_callsign_ne now m q h
  | n1mm => exact parseN1MM_callsign_ne now m q h
  | general => exact parseGeneral_callsign_ne now m q h

/-- Witness for C1: the WSJT-X scenario payload parses successfully and
the resulting callsign is the non-empty "VK1ABC". -/
theorem c1_witness :
    ParseMessage dt0 wsjtxScenarioMsg MessageType.wsjtx =
      Except.ok ⟨str "VK1ABC", [], str "FT8", str "-05", str "-12", dt0, str "20m", []⟩ ∧
    (⟨str "VK1ABC", [], str "FT8", str "-05", str "-12", dt0, str "20m", []⟩ : QSO).Callsign ≠ [] := by
  constructor
  · rfl
  · exact c1_parse_nonempty_callsign dt0 wsjtxScenarioMsg MessageType.wsjtx _ rfl

/-! ## C2: total band lookup against the spec's range table -/

/-- C2: for every (exact rational) frequency, `FrequencyToBand` agrees
with looking the frequency up in the spec's fixed range table (so each
in-range frequency maps to its range's label and everything else to
"UNK", with no error path), and the table's ranges are pairwise
disjoint, so the containing range is unique. -/
theorem c2_frequency_to_band (q : ℚ) :
    FrequencyToBand q = lookupBand bandRanges q ∧
    ∀ r₁ ∈ bandRanges, ∀ r₂ ∈ bandRanges,
      r₁.1 ≤ q ∧ q ≤ r₁.2.1 → r₂.1 ≤ q ∧ q ≤ r₂.2.1 → r₁ = r₂ := by
  constructor
  · rfl
  · intro r1 h1 r2 h2 hq1 hq2
    simp only [bandRanges, List.mem_cons, List.not_mem_nil, or_false] at h1 h2
    obtain ⟨ha1, hb1⟩ := hq1
    obtain ⟨ha2, hb2⟩ := hq2
    rcases h1 with rfl | rfl | rfl | rfl | rfl | rfl | rfl | rfl | rfl <;>
      rcases h2 with rfl | rfl | rfl | rfl | rfl | rfl | rfl | rfl | rfl <;>
      first
        | rfl
        | (exfalso
           rw [Rat.mkRat_eq_div] at ha1 hb1 ha2 hb2
           norm_num at ha1 hb1 ha2 hb2
           linarith)

/-- Witness for C2: at 1.85 MHz the hypotheses of the uniqueness part
hold for the 160m row, and the lookup equation yields "160m". -/
theorem c2_witness :
    FrequencyToBand (mkRat 185 100) = lookupBand bandRanges (mkRat 185 100) ∧
    lookupBand bandRanges (mkRat 185 100) = str "160m" ∧
    ((mkRat 18 10, mkRat 20 10, str "160m") : ℚ × ℚ × Str) =
      (mkRat 18 10, mkRat 20 10, str "160m") :=
  ⟨(c2_frequency_to_band (mkRat 185 100)).1, rfl,
   (c2_frequency_to_band (mkRat 185 100)).2
     (mkRat 18 10, mkRat 20 10, str "160m") (by decide)
     (mkRat 18 10, mkRat 20 10, str "160m") (by decide)
     ⟨by decide, by decide⟩ ⟨by decide, by decide⟩⟩

/-! ## C3: N1MM-before-WSJT-X detection priority -/

/-- Counterexample to C3 as stated: this payload contains both the N1MM
marker `<contactinfo` and the WSJT-X substring `<call:`, yet detection
classifies it Generic, not N1MM, because the binary-content filter runs
first. -/
theorem c3_counterexample :
    strContains (toLowerStr c3Payload) (str "<contactinfo") = true ∧
    strContains (toLowerStr c3Payload) (str "<call:") = true ∧
    DetectMessageType c3Payload = MessageType.general := ⟨rfl, rfl, rfl⟩

/-- C3 (amended): detection is a pure function of the payload, hence
deterministic; and for every payload that passes the binary-content
filter (at most 10% unusual control bytes) and contains both an N1MM
marker and a WSJT-X substring, detection classifies it as N1MM, because
the N1MM check precedes the WSJT-X heuristics. -/
theorem c3_n1mm_priority (m : Str)
    (hfrac : mkRat (nonPrintableCount m) m.length ≤ mkRat 1 10)
    (hn1mm : strContains (toLowerStr m) (str "<contactinfo") = true)
    (_hwsjtx : strContains (toLowerStr m) (str "<call:") = true) :
    DetectMessageType m = MessageType.n1mm := by
  have h1 : ¬(0 < m.length ∧ mkRat 1 10 < mkRat (nonPrintableCount m) m.length) :=
    fun hc => absurd hc.2 (not_lt.2 hfrac)
  unfold DetectMessageType
  rw [if_neg h1, if_pos (by simp [hn1mm])]

/-- Witness for C3 (amended): a clean payload with both markers is
detected as N1MM. -/
theorem c3_witness :
    mkRat (nonPrintableCount (str "<contactinfo<call:"))
        (str "<contactinfo<call:").length ≤ mkRat 1 10 ∧
    strContains (toLowerStr (str "<contactinfo<call:")) (str "<contactinfo") = true ∧
    strContains (toLowerStr (str "<contactinfo<call:")) (str "<call:") = true ∧
    DetectMessageType (str "<contactinfo<call:") = MessageType.n1mm :=
  ⟨by decide, rfl, rfl, c3_n1mm_priority _ (by decide) rfl rfl⟩

/-! ## C4: payloads over the binary threshold are dropped -/

/-- C4: every non-empty payload in which more than 10% of the bytes are
control characters other than tab, LF and CR is classified Generic by
detection regardless of its content, and the Generic parser then rejects
it with the binary-noise failure, so the pipeline drops it. -/
theorem c4_binary_noise_dropped (m : Str) (now : GoTime) (hne : m ≠ [])
    (hfrac : mkRat 1 10 < mkRat (nonPrintableCount m) m.length) :
    DetectMessageType m = MessageType.general ∧
    parseGeneral now m = Except.error (str "binary protocol message, ignoring") := by
  constructor
  · unfold DetectMessageType
    rw [if_pos ⟨List.length_pos.2 hne, hfrac⟩]
  · have hc : hasCtrl m = true := by
      rcases Nat.eq_zero_or_pos (nonPrintableCount m) with h0 | hpos
      · exfalso
        rw [h0] at hfrac
        rw [Rat.mkRat_eq_div, Rat.mkRat_eq_div] at hfrac
        norm_num at hfrac
      · unfold nonPrintableCount at hpos
        obtain ⟨a, ha, hpa⟩ := List.countP_pos_iff.mp hpos
        unfold hasCtrl
        rw [List.any_eq_true]
        exact ⟨a, ha, hpa⟩
    unfold parseGeneral
    rw [if_pos hc]

/-- Witness for C4: three NUL bytes form a non-empty payload that is
100% non-printable; it is detected Generic and rejected by the Generic
parser. -/
theorem c4_witness :
    (List.replicate 3 (Char.ofNat 0) ≠ ([] : Str)) ∧
    mkRat 1 10 < mkRat (nonPrintableCount (List.replicate 3 (Char.ofNat 0)))
      (List.replicate 3 (Char.ofNat 0)).length ∧
    DetectMessageType (List.replicate 3 (Char.ofNat 0)) = MessageType.general ∧
    parseGeneral dt0 (List.replicate 3 (Char.ofNat 0)) =
      Except.error (str "binary protocol message, ignoring") :=
  ⟨by decide, by decide,
   (c4_binary_noise_dropped _ dt0 (by decide) (by decide)).1,
   (c4_binary_noise_dropped _ dt0 (by decide) (by decide)).2⟩

/-! ## C5: the N1MM timestamp round-trip scenario -/

/-- C5: whatever the current time is, parsing the scenario payload
yields exactly the UTC timestamp 2025-11-19T01:36:37, and serializing
the parsed record reproduces the literal timestamp string
"2025-11-19 01:36:37" (no timezone conversion happens in between). -/
theorem c5_n1mm_timestamp_roundtrip (now : GoTime) :
    parseN1MM now n1mmScenarioMsg = Except.ok qsoC5 ∧
    qsoC5.DateTimeV = ⟨2025, 11, 19, 1, 36, 37, TimeLoc.utc⟩ ∧
    strContains (formatForN1MM testProfile qsoC5) (str "2025-11-19 01:36:37") = true :=
  ⟨rfl, rfl, rfl⟩

/-! ## C6: the VarAC JSON band-derivation scenario -/

/-- C6: the scenario payload is detected as VarAC, and the VarAC parser
succeeds with callsign "EA1ABC", frequency "7.105" and band "40m"
derived from the frequency (no band field being present), defaulting
mode and both signal reports; the timestamp falls back to the current
time (instantiated at the reference instant `dt0`). -/
theorem c6_varac_band_derivation :
    DetectMessageType varacScenarioMsg = MessageType.varac ∧
    parseVarAC dt0 varacScenarioMsg =
      Except.ok ⟨str "EA1ABC", str "7.105", str "VARA", str "599", str "599",
        dt0, str "40m", []⟩ :=
  ⟨rfl, rfl⟩

/-! ## C7: "+00" versus "599" signal-report defaults in the VarAC paths -/

theorem parseADIF_rst (now : GoTime) (m : Str) (q : QSO)
    (h : parseADIF now m = Except.ok q) :
    (mapLookup (adifEntries m) (str "RST_SENT") = none → q.RST_Sent = str "+00") ∧
    (mapLookup (adifEntries m) (str "RST_RCVD") = none → q.RST_Rcvd = str "+00") := by
  unfold parseADIF at h
  obtain ⟨-, rfl⟩ := requireCallsign_ok _ _ _ h
  constructor <;> intro h0 <;> simp [h0]

theorem varacPost_rst (q0 : QSO) (m : Str) (q : QSO)
    (h : varacPost q0 m = Except.ok q) :
    (q0.RST_Sent = [] → q.RST_Sent = str "599") ∧
    (q0.RST_Rcvd = [] → q.RST_Rcvd = str "599") := by
  unfold varacPost at h
  obtain ⟨-, rfl⟩ := requireCallsign_ok _ _ _ h
  constructor <;> intro h0 <;> simp [h0]

/-- C7: a VarAC payload handled by the ADIF sub-format (it contains
`<CALL:` and `<EOR>`) whose extracted field map lacks RST_SENT (resp.
RST_RCVD) yields a record whose sent (resp. received) signal report is
"+00", whereas a VarAC payload handled by the JSON or plain-text
sub-format with no extracted signal report yields "599" — the two
sub-format families keep distinct defaults. -/
theorem c7_signal_report_defaults (now : GoTime) (m : Str) (q : QSO) :
    ((strContains m (str "<CALL:") && strContains m (str "<EOR>")) = true →
      parseVarAC now m = Except.ok q →
      (mapLookup (adifEntries m) (str "RST_SENT") = none → q.RST_Sent = str "+00") ∧
      (mapLookup (adifEntries m) (str "RST_RCVD") = none → q.RST_Rcvd = str "+00")) ∧
    ((strContains m (str "<CALL:") && strContains m (str "<EOR>")) = false →
      parseVarAC now m = Except.ok q →
      (findJsonField (str "rst_sent") m = none → q.RST_Sent = str "599") ∧
      (findJsonRstRcvd m = none → q.RST_Rcvd = str "599")) := by
  constructor
  · intro hc hp
    unfold parseVarAC at hp
    rw [if_pos hc] at hp
    exact parseADIF_rst now m q hp
  · intro hc hp
    unfold parseVarAC at hp
    rw [if_neg (by simp [hc])] at hp
    split at hp
    · have hrst := varacPost_rst _ m q hp
      constructor
      · intro h0
        exact hrst.1 (by simp [h0])
      · intro h0
        exact hrst.2 (by simp [h0])
    · have hrst := varacPost_rst _ m q hp
      exact ⟨fun _ => hrst.1 rfl, fun _ => hrst.2 rfl⟩

/-- Witness for C7: concrete ADIF and JSON payloads without signal
reports receive the "+00" and "599" defaults respectively. -/
theorem c7_witness :
    (strContains adifWitnessMsg (str "<CALL:") && strContains adifWitnessMsg (str "<EOR>")) = true ∧
    mapLookup (adifEntries adifWitnessMsg) (str "RST_SENT") = none ∧
    (⟨str "N7AKG", [], str "DYNAMIC", str "+00", str "+00", dt0, [], []⟩ : QSO).RST_Sent = str "+00" ∧
    (strContains jsonWitnessMsg (str "<CALL:") && strContains jsonWitnessMsg (str "<EOR>")) = false ∧
    findJsonField (str "rst_sent") jsonWitnessMsg = none ∧
    (⟨str "W1ABC", [], str "VARA", str "599", str "599", dt0, [], []⟩ : QSO).RST_Sent = str "599" :=
  ⟨rfl, rfl,
   ((c7_signal_report_defaults dt0 adifWitnessMsg
       ⟨str "N7AKG", [], str "DYNAMIC", str "+00", str "+00", dt0, [], []⟩).1 rfl rfl).1 rfl,
   rfl, rfl,
   ((c7_signal_report_defaults dt0 jsonWitnessMsg
       ⟨str "W1ABC", [], str "VARA", str "599", str "599", dt0, [], []⟩).2 rfl rfl).1 rfl⟩

/-! ## C8: verbatim callsign/mode round-trip through the serializer -/

theorem escapeChar_plain (c : Char) (h : isXmlSpecial c = false) : escapeChar c = [c] := by
  simp only [isXmlSpecial, Bool.or_eq_false_iff] at h
  obtain ⟨⟨⟨⟨⟨⟨⟨h1, h2⟩, h3⟩, h4⟩, h5⟩, h6⟩, h7⟩, h8⟩ := h
  unfold escapeChar
  simp [h1, h2, h3, h4, h5, h6, h7, h8]

theorem escapeXML_plain (s : Str) (h : s.all (fun c => !isXmlSpecial c) = true) :
    escapeXML s = s := by
  induction s with
  | nil => rfl
  | cons c cs ih =>
    rw [List.all_cons, Bool.and_eq_true, Bool.not_eq_true'] at h
    unfold escapeXML
    rw [escapeChar_plain c h.1, ih h.2]
    rfl

set_option maxRecDepth 20000 in
/-- Counterexample to C8 as stated: for the record with callsign "A<B"
the serialized XML does not contain `<call>A<B</call>` verbatim — the
serializer escapes the callsign, emitting `<call>A&lt;B</call>`
instead. -/
theorem c8_counterexample :
    strContains (formatForN1MM testProfile qsoC8)
      (str "<call>" ++ qsoC8.Callsign ++ str "</call>") = false ∧
    strContains (formatForN1MM testProfile qsoC8) (str "<call>A&lt;B</call>") = true :=
  ⟨rfl, rfl⟩

/-- C8 (amended): for every record and profile whose callsign and mode
contain no character rewritten by XML escaping (quote, apostrophe,
ampersand, angle brackets, tab, LF, CR), the serialized XML contains
`<call>{callsign}</call>` and `<mode>{mode}</mode>` verbatim. -/
theorem c8_serializer_roundtrip (f : Formatter) (q : QSO)
    (hc : q.Callsign.all (fun c => !isXmlSpecial c) = true)
    (hm : q.Mode.all (fun c => !isXmlSpecial c) = true) :
    strContains (formatForN1MM f q) (str "<call>" ++ q.Callsign ++ str "</call>") = true ∧
    strContains (formatForN1MM f q) (str "<mode>" ++ q.Mode ++ str "</mode>") = true := by
  have hec := escapeXML_plain q.Callsign hc
  have hem := escapeXML_plain q.Mode hm
  unfold formatForN1MM
  constructor
  · simp only [List.append_assoc]
    iterate 26 apply strContains_append_of
    apply strContains_of_isPrefixB
    rw [hec, isPrefixB_append_both, isPrefixB_append_both]
    exact isPrefixB_self_append _ _
  · simp only [List.append_assoc]
    iterate 22 apply strContains_append_of
    apply strContains_of_isPrefixB
    rw [hem, isPrefixB_append_both, isPrefixB_append_both]
    exact isPrefixB_self_append _ _

/-- Witness for C8 (amended): the plain record of the C5 scenario
round-trips its callsign and mode verbatim. -/
theorem c8_witness :
    qsoC5.Callsign.all (fun c => !isXmlSpecial c) = true ∧
    qsoC5.Mode.all (fun c => !isXmlSpecial c) = true ∧
    strContains (formatForN1MM testProfile qsoC5)
      (str "<call>" ++ qsoC5.Callsign ++ str "</call>") = true ∧
    strContains (formatForN1MM testProfile qsoC5)
      (str "<mode>" ++ qsoC5.Mode ++ str "</mode>") = true :=
  ⟨rfl, rfl, (c8_serializer_roundtrip testProfile qsoC5 rfl rfl).1,
   (c8_serializer_roundtrip testProfile qsoC5 rfl rfl).2⟩

/-! ## C9: the pipeline's source filter -/

/-- C9: a datagram is processed exactly when its origin port is in the
allow-list (configured listen port, or 2333 / 2237 / 2442 / 12060) or
its origin is loopback with a port below 10000; every other origin makes
`processMessage` return `none` before detection and parsing run, and in
particular, under the default configuration a message from source port
55001 on a non-loopback address is dropped whatever its content. -/
theorem c9_source_filter (cfg : Config) (now : GoTime) (m : Str)
    (srcPort : Nat) (lb : Bool) :
    processMessage cfg now m srcPort lb =
      (if specAccept cfg srcPort lb then relayCore cfg now m else none) ∧
    processMessage (⟨2333, cfg.autoDetect, cfg.sourceType, cfg.profile⟩ : Config)
      now m 55001 false = none ∧
    processMessage defaultConfig now m 55001 false = none := by
  refine ⟨?_, rfl, rfl⟩
  have hEq : ((expectedPorts cfg).contains srcPort || (lb && decide (srcPort < 10000)))
      = specAccept cfg srcPort lb := by
    rw [Bool.eq_iff_iff]
    simp only [expectedPorts, specAccept, Bool.or_eq_true, Bool.and_eq_true,
      List.contains, List.elem_iff, List.mem_cons, List.not_mem_nil, or_false,
      beq_iff_eq, decide_eq_true_eq]
    tauto
  unfold processMessage relayCore
  rw [hEq]
  cases hs : specAccept cfg srcPort lb with
  | true => simp
  | false => simp

/-! ## C10: uppercase-only ADIF CALL tags pass the structural check but
fail extraction -/

theorem matchWsjtxCallAt_isPrefixB :
    ∀ s v, matchWsjtxCallAt s = some v → isPrefixB (str "<call:") s = true := by
  intro s v h
  unfold matchWsjtxCallAt at h
  cases hd : dropLitB (str "<call:") s with
  | none => rw [hd] at h; simp at h
  | some r => exact dropLitB_isPrefixB _ _ _ hd

/-- C10: every payload free of non-printable bytes that contains the
uppercase `<CALL:` marker but no lowercase `<call:` passes `parseWSJTX`'s
structural check yet fails with the "no callsign found" error, because
the callsign extraction regex matches only the lowercase form. -/
theorem c10_uppercase_call_rejected (now : GoTime) (m : Str)
    (hctrl : hasCtrl m = false)
    (hupper : strContains m (str "<CALL:") = true)
    (hlower : strContains m (str "<call:") = false) :
    parseWSJTX now m = Except.error (str "no callsign found in message") := by
  have hfind : findWsjtxCall m = none := by
    cases hf : findWsjtxCall m with
    | none => rfl
    | some v =>
      have hc := scanFor_imp_strContains matchWsjtxCallAt (str "<call:")
        matchWsjtxCallAt_isPrefixB m v hf
      rw [hlower] at hc
      exact absurd hc (by simp)
  unfold parseWSJTX
  rw [if_neg (by simp [hctrl]), if_neg (by simp [hupper])]
  rw [hfind]
  simp [requireCallsign]

/-- Witness for C10: a concrete printable payload with only an uppercase
CALL tag is rejected with the "no callsign found" error. -/
theorem c10_witness :
    hasCtrl (str "<CALL:6>VK1ABC<EOR>") = false ∧
    strContains (str "<CALL:6>VK1ABC<EOR>") (str "<CALL:") = true ∧
    strContains (str "<CALL:6>VK1ABC<EOR>") (str "<call:") = false ∧
    parseWSJTX dt0 (str "<CALL:6>VK1ABC<EOR>") =
      Except.error (str "no callsign found in message") :=
  ⟨rfl, rfl, rfl, c10_uppercase_call_rejected dt0 _ rfl rfl rfl⟩

end Udp
